import Mathlib

/-!
Verification of the BOL02 tracking dashboard (`src/app.py`).

The development shallowly embeds the data pipeline of the application:

* `cargar_datos_desde_url` — CSV loading and normalization (sentinel tokens,
  day-first date parsing, the `FECHA_INGRESO` 1900-01-01 collapse, text coercion);
* `preparar_datos` / `filtrar_datos` — the search filter over the three
  query fields `REFERENCIA`, `NP`, `CLIENTE`;
* `convertir_a_csv` — CSV serialization of a result set;
* `formatear_fechas_df` — display formatting of the four date columns;
* the `main` control flow around empty queries, empty loads and the
  download policy.

Pandas cells are modelled by `TCell`, which distinguishes the two missing
values that `pandas` distinguishes (`numpy` NaN/NaT versus `pandas.NA`),
because `astype(str)` renders them differently ("nan" versus "<NA>").
-/

namespace BOL02

/-! ### Python string helpers -/

/-- Whitespace characters recognized by Python's `str.strip()`. -/
def isPySpace (c : Char) : Bool :=
  c = ' ' || c = '\t' || c = '\n' || c = '\r' || c = '\x0b' || c = '\x0c'

/-- Drop leading Python whitespace from a character list. -/
def stripLeft (l : List Char) : List Char := l.dropWhile isPySpace

/-- Drop trailing Python whitespace from a character list. -/
def stripRight : List Char → List Char
  | [] => []
  | c :: cs =>
    match stripRight cs with
    | [] => if isPySpace c then [] else [c]
    | c' :: cs' => c :: c' :: cs'

/-- Python's `str.strip()`: remove leading and trailing whitespace. -/
def pyStrip (s : String) : String := ⟨stripRight (stripLeft s.data)⟩

/-! ### The regular-expression fragment used by `str.contains`

`pandas.Series.str.contains(pat, case=False, na=False)` (lines 93-105 of
`src/app.py`) treats `pat` as a regular expression (`regex=True` is the
default) and searches for a match anywhere in the cell, case-insensitively.
We embed `re.search` for the fragment of Python regular expressions built
from literal characters and the wildcard `.` (which matches any character
except a newline); every theorem below evaluates the matcher only on
patterns inside this fragment. -/

/-- Case-insensitive character comparison, as under `re.IGNORECASE`. -/
def ciEq (p c : Char) : Bool := p.toLower == c.toLower

/-- Match the whole pattern against a prefix of the text, starting here.
`.` in the pattern matches any character except `'\n'`; any other pattern
character matches case-insensitively. -/
def reMatchAt : List Char → List Char → Bool
  | [], _ => true
  | _ :: _, [] => false
  | p :: ps, c :: cs => (if p = '.' then c != '\n' else ciEq p c) && reMatchAt ps cs

/-- `re.search`: try to match the pattern at every start position. -/
def reSearch (pat : List Char) : List Char → Bool
  | [] => reMatchAt pat []
  | c :: cs => reMatchAt pat (c :: cs) || reSearch pat cs

/-- `pat` is a case-insensitive literal prefix of the text. -/
def prefOfCI : List Char → List Char → Bool
  | [], _ => true
  | _ :: _, [] => false
  | p :: ps, c :: cs => ciEq p c && prefOfCI ps cs

/-- `pat` occurs somewhere in the text as a case-insensitive literal
substring. -/
def substrOfCI (pat : List Char) : List Char → Bool
  | [] => pat.isEmpty
  | c :: cs => prefOfCI pat (c :: cs) || substrOfCI pat cs

/-- Characters that carry no special meaning in a Python regular
expression (outside character classes). -/
def regexMetaChars : List Char :=
  ['.', '^', '$', '*', '+', '?', '\x7b', '\x7d', '[', ']', '\\', '|', '(', ')']

/-- A character that a Python regex treats as a literal. -/
def regexLit (c : Char) : Bool := !(regexMetaChars.contains c)

/-! ### The record model for the search filter

`filtrar_datos` reads only the three columns `REFERENCIA`, `NP` and
`CLIENTE`; all remaining fields of a record travel through the filter
untouched and are collected in `resto`.  A field holds `none` when the
cell is the pandas missing marker (`str.contains(…, na=False)` treats it
as a non-match; `preparar_datos` fills it with `""`). -/

structure Row where
  referencia : Option String
  np : Option String
  cliente : Option String
  resto : List String
deriving DecidableEq

/-- `series.str.contains(pat, case=False, na=False)` on one cell. -/
def strContains (field : Option String) (pat : String) : Bool :=
  match field with
  | none => false
  | some h => reSearch pat.data h.data

/-- One `if <query> and <query>.strip(): df = df[df[col].str.contains(...)]`
block of `filtrar_datos` (`src/app.py` lines 89-105); the source repeats
this block once per search field. -/
def filtroCampo (df : List Row) (proj : Row → Option String) (q : Option String) :
    List Row :=
  match q with
  | none => df
  | some s =>
    if s ≠ "" ∧ pyStrip s ≠ "" then
      df.filter (fun r => strContains (proj r) (pyStrip s))
    else df

/-- `filtrar_datos(df, referencia, np, cliente)`: apply the three optional
filters in sequence. -/
def filtrar_datos (df : List Row) (referencia np cliente : Option String) :
    List Row :=
  filtroCampo
    (filtroCampo
      (filtroCampo df (fun r => r.referencia) referencia)
      (fun r => r.np) np)
    (fun r => r.cliente) cliente

/-- `preparar_datos`: fill the three search columns' missing values with
`""` and strip surrounding whitespace. -/
def preparar_datos (df : List Row) : List Row :=
  df.map (fun r =>
    { r with
      referencia := some (pyStrip (r.referencia.getD ""))
      np := some (pyStrip (r.np.getD ""))
      cliente := some (pyStrip (r.cliente.getD "")) })

/-! ### Calendar dates and the `pd.to_datetime` fragment -/

structure Date where
  year : Nat
  month : Nat
  day : Nat
deriving DecidableEq

/-- The sentinel date `pd.Timestamp("1900-01-01")`. -/
def date1900 : Date := ⟨1900, 1, 1⟩

/-- Whether `year` is a leap year (Gregorian rule). -/
def isLeap (y : Nat) : Bool := y % 4 = 0 && (y % 100 ≠ 0 || y % 400 = 0)

def daysInMonth (y m : Nat) : Nat :=
  if m = 2 then (if isLeap y then 29 else 28)
  else if m = 4 || m = 6 || m = 9 || m = 11 then 30
  else 31

def validDMY (y m d : Nat) : Bool :=
  1 ≤ m && m ≤ 12 && 1 ≤ d && d ≤ daysInMonth y m

/-- Split a character list on a separator character (`str.split(sep)`). -/
def splitOnChar (sep : Char) : List Char → List (List Char)
  | [] => [[]]
  | c :: cs =>
    match splitOnChar sep cs with
    | [] => if c = sep then [[], [c]] else [[c]]
    | h :: t => if c = sep then [] :: h :: t else (c :: h) :: t

/-- Parse a non-empty all-digit character list as a decimal number. -/
def digitsToNat : List Char → Option Nat
  | [] => none
  | l =>
    if l.all Char.isDigit then
      some (l.foldl (fun n c => 10 * n + (c.toNat - 48)) 0)
    else none

/-- Fragment of `pd.to_datetime(cell, errors="coerce", dayfirst=True)` on a
string cell: day-first slash dates `D/M/YYYY` and ISO dates `YYYY-MM-DD`
(which pandas reads year-first even under `dayfirst=True`).  Strings outside
the fragment yield `none`; the concrete strings evaluated in the theorems
below ("", "abc", "01/01/1900", "25/12/2024", "1900-01-01") all coerce in
pandas exactly as here. -/
def to_datetime_dayfirst (s : String) : Option Date :=
  match splitOnChar '/' s.data with
  | [ds, ms, ys] =>
    match digitsToNat ds, digitsToNat ms, digitsToNat ys with
    | some d, some m, some y => if validDMY y m d then some ⟨y, m, d⟩ else none
    | _, _, _ => none
  | _ =>
    match splitOnChar '-' s.data with
    | [ys, ms, ds] =>
      match digitsToNat ys, digitsToNat ms, digitsToNat ds with
      | some y, some m, some d => if validDMY y m d then some ⟨y, m, d⟩ else none
      | _, _, _ => none
    | _ => none

/-! ### Pandas cells and the loader's normalization

`TCell` models one cell of a `DataFrame`.  The two missing markers that
pandas distinguishes are both present because `astype(str)` renders
`numpy` NaN/NaT as `"nan"` but `pandas.NA` as `"<NA>"`, which is exactly
what lines 48-56 of `src/app.py` are sensitive to. -/

inductive TCell where
  | nan : TCell
  | NA : TCell
  | s : String → TCell
  | date : Date → TCell
deriving DecidableEq

/-- Python's `str(cell)` as `astype(str)` applies it: `numpy` NaN prints
as `"nan"`, `pandas.NA` as `"<NA>"`, and a midnight `Timestamp` as
`"YYYY-MM-DD 00:00:00"` (date cells never occur in text columns). -/
def pyStr : TCell → String
  | .nan => "nan"
  | .NA => "<NA>"
  | .s v => v
  | .date d => toString d.year ++ "-" ++ toString d.month ++ "-" ++ toString d.day ++ " 00:00:00"

/-- The default `NaN` tokens of `pd.read_csv`: these raw strings are read
as `numpy` NaN before any explicit cleaning runs. -/
def defaultNaTokens : List String :=
  ["", "#N/A", "#N/A N/A", "#NA", "-1.#IND", "-1.#QNAN", "-NaN", "-nan",
   "1.#IND", "1.#QNAN", "<NA>", "N/A", "NA", "NULL", "NaN", "None", "n/a",
   "nan", "null"]

/-- Reading one raw CSV cell with `pd.read_csv` (default `na_values`). -/
def readCell (raw : String) : TCell :=
  if defaultNaTokens.contains raw then .nan else .s raw

/-- The sentinel list of line 33:
`df.replace(['', 'nan', 'NaN', 'None', 'N/A', 'n/a', '(en blanco)'], pd.NA)`. -/
def sentinelTokens : List String :=
  ["", "nan", "NaN", "None", "N/A", "n/a", "(en blanco)"]

/-- Line 33: replace any cell equal to a sentinel token by `pd.NA`.
(NaN cells are not string-equal to any token and pass through.) -/
def replaceSentinels (c : TCell) : TCell :=
  match c with
  | .s v => if sentinelTokens.contains v then .NA else .s v
  | c => c

/-- Line 53: `astype(str).str.strip()` on a text-column cell. -/
def astypeStrip (c : TCell) : TCell := .s (pyStrip (pyStr c))

/-- Line 56: `df.replace('nan', pd.NA)` on one cell. -/
def replaceNanStr (c : TCell) : TCell := if c = .s "nan" then .NA else c

/-- Line 40: `pd.to_datetime(cell, errors='coerce', dayfirst=True)`;
missing values coerce to NaT, unparsable strings coerce to NaT. -/
def to_datetimeCell (c : TCell) : TCell :=
  match c with
  | .s v => match to_datetime_dayfirst v with
            | some d => .date d
            | none => .nan
  | .nan => .nan
  | .NA => .nan
  | .date d => .date d

/-- Lines 44-46: map NaT and the literal `1900-01-01` both to NaT
(`FECHA_INGRESO` only). -/
def fechaIngresoFix (c : TCell) : TCell :=
  match c with
  | .nan => .nan
  | .NA => .nan
  | .date d => if d = date1900 then .nan else .date d
  | .s v => .s v

def dateColumns : List String := ["ETD", "SHIP_DATE", "FECHA_INGRESO", "FECHA_SOLICITADO"]

def textColumns : List String :=
  ["ORIGEN", "NP", "NP_ACEPTADA", "DESCRIPCION", "MOD", "STATUS",
   "CLIENTE", "SOLICITADO", "REFERENCIA", "ESTADO"]

/-- A date-column cell after lines 30-40 (read, sentinel replacement,
`to_datetime`), before the `FECHA_INGRESO` special case. -/
def dateCellRaw (raw : String) : TCell :=
  to_datetimeCell (replaceSentinels (readCell raw))

/-- The loader's whole per-cell pipeline for a column named `name`
(`src/app.py` lines 30-56, in source order: read, sentinel replacement,
date conversion for date columns with the `FECHA_INGRESO` fix, text
coercion for text columns, final `'nan'` → `pd.NA` replacement). -/
def columnPipeline (name : String) (raw : String) : TCell :=
  if dateColumns.contains name then
    let c := dateCellRaw raw
    replaceNanStr (if name = "FECHA_INGRESO" then fechaIngresoFix c else c)
  else if textColumns.contains name then
    replaceNanStr (astypeStrip (replaceSentinels (readCell raw)))
  else
    replaceNanStr (replaceSentinels (readCell raw))

/-! ### DataFrames, the loader, and the caller's empty check -/

/-- A raw CSV table: named columns of raw string cells. -/
def RawTable := List (String × List String)

structure DataFrame where
  cols : List (String × List TCell)
deriving DecidableEq

/-- Number of rows (length of the index); columns are rectangular. -/
def nRows (df : DataFrame) : Nat :=
  match df.cols with
  | [] => 0
  | c :: _ => c.2.length

/-- `df.empty`: true when either axis has length zero. -/
def pdEmpty (df : DataFrame) : Bool := df.cols.isEmpty || nRows df == 0

/-- Normalize every column of a raw table (lines 30-56). -/
def normalizeTable (t : RawTable) : DataFrame :=
  ⟨t.map (fun col => (col.1, col.2.map (columnPipeline col.1)))⟩

/-- `cargar_datos_desde_url`: the fetch-and-parse step is fallible, so it
is modelled as an `Option RawTable` argument; `none` stands for
`pd.read_csv` raising (unreachable or unparsable source), in which case
the `except` branch of lines 60-62 returns `pd.DataFrame()`. -/
def cargar_datos_desde_url (fetched : Option RawTable) : DataFrame :=
  match fetched with
  | none => DataFrame.mk []
  | some t => normalizeTable t

/-- Outcome of the loading step of `main` (lines 136-141). -/
inductive LoadOutcome where
  | unavailable : LoadOutcome
  | loaded : DataFrame → LoadOutcome
deriving DecidableEq

/-- Lines 136-141 of `main`: load, then halt with the user-visible
"data unavailable" error when the loaded table is empty. -/
def mainLoadStep (fetched : Option RawTable) : LoadOutcome :=
  let df := cargar_datos_desde_url fetched
  if pdEmpty df then .unavailable else .loaded df

/-! ### Display formatting of the date columns (`formatear_fechas_df`) -/

/-- Zero-padded decimal rendering of width 2. -/
def pad2 (n : Nat) : String := if n < 10 then "0" ++ toString n else toString n

/-- Zero-padded decimal rendering of width 4. -/
def pad4 (n : Nat) : String :=
  if n < 10 then "000" ++ toString n
  else if n < 100 then "00" ++ toString n
  else if n < 1000 then "0" ++ toString n
  else toString n

/-- `x.strftime('%d/%m/%Y')`. -/
def strftimeDMY (d : Date) : String :=
  pad2 d.day ++ "/" ++ pad2 d.month ++ "/" ++ pad4 d.year

/-- The per-cell lambda of lines 127-128:
`x.strftime('%d/%m/%Y') if pd.notnull(x) else ''`.  `pd.notnull` is false
on NaN/NaT and on `pd.NA`; on a string cell `pd.notnull` is true and
`.strftime` raises `AttributeError`, modelled by `none`. -/
def formatCellValor : TCell → Option String
  | .date d => some (strftimeDMY d)
  | .nan => some ""
  | .NA => some ""
  | .s _ => none

def formatCell (c : TCell) : Option TCell := (formatCellValor c).map TCell.s

/-- Apply `formatCell` to every cell of a date column; `none` when any
cell raises. -/
def formatColumnCells : List TCell → Option (List TCell)
  | [] => some []
  | c :: cs =>
    match formatCell c, formatColumnCells cs with
    | some c', some cs' => some (c' :: cs')
    | _, _ => none

/-- The column loop of `formatear_fechas_df` (lines 123-129): date columns
are reformatted cell by cell, all other columns are left untouched. -/
def formatearCols : List (String × List TCell) → Option (List (String × List TCell))
  | [] => some []
  | col :: rest =>
    let col' := if dateColumns.contains col.1 then formatColumnCells col.2 else some col.2
    match col', formatearCols rest with
    | some cs', some rest' => some ((col.1, cs') :: rest')
    | _, _ => none

/-- `formatear_fechas_df`: work on a copy (`df.copy()`), reformat the four
date columns, return the copy.  `none` models a raised exception. -/
def formatear_fechas_df (df : DataFrame) : Option DataFrame :=
  (formatearCols df.cols).map DataFrame.mk

/-- The `FECHA_INGRESO` display value for one raw source cell: the loader
pipeline for that column followed by the formatter's cell lambda. -/
def displayFechaIngreso (raw : String) : Option String :=
  formatCellValor (columnPipeline "FECHA_INGRESO" raw)

/-! ### CSV serialization (`convertir_a_csv`) -/

/-- A CSV field needs quoting when it contains a delimiter, a quote or a
line break (`csv.QUOTE_MINIMAL`). -/
def needsQuoting (v : String) : Bool :=
  v.data.any (fun c => c = ',' || c = '"' || c = '\n' || c = '\r')

/-- Quote a field: wrap in double quotes, doubling inner quotes. -/
def csvQuote (v : String) : String :=
  "\"" ++ ⟨v.data.foldr (fun c acc => if c = '"' then '"' :: '"' :: acc else c :: acc) []⟩ ++ "\""

/-- Render one string field under minimal quoting. -/
def csvStr (v : String) : String := if needsQuoting v then csvQuote v else v

/-- Render one cell as `to_csv` does: missing values print as the empty
string (default `na_rep=''`), strings under minimal quoting, and a
datetime value through its ISO form (no theorem below exercises the
datetime clause). -/
def csvField : TCell → String
  | .s v => csvStr v
  | .nan => ""
  | .NA => ""
  | .date d => pad4 d.year ++ "-" ++ pad2 d.month ++ "-" ++ pad2 d.day

/-- Join CSV lines, each terminated by `'\n'` (the line terminator on the
POSIX host the app runs on). -/
def csvLines (ls : List String) : String :=
  ls.foldr (fun l acc => l ++ "\n" ++ acc) ""

/-- `convertir_a_csv`: `df.to_csv(index=False, encoding='utf-8-sig')`.
With no path argument `to_csv` writes into an in-memory text buffer and
returns a Python `str`; the `encoding` argument applies only when `to_csv`
itself opens a binary file handle, so no byte-order mark is prepended
here.  `index=False` drops the index column; the header row and the comma
delimiter are the defaults. -/
def convertir_a_csv (df : DataFrame) : String :=
  let header := String.intercalate "," (df.cols.map (fun c => csvStr c.1))
  let rows := (List.range (nRows df)).map
    (fun i => String.intercalate "," (df.cols.map (fun c => csvField (c.2.getD i TCell.nan))))
  csvLines (header :: rows)

/-! ### The search flow and the download policy of `main` -/

/-- Outcome of pressing the search button (lines 202-228): either the
"must supply a criterion" warning (no table is rendered, no export is
reachable), the "no results" warning, or a rendered result table. -/
inductive SearchOutcome where
  | warnNoCriteria : SearchOutcome
  | noResults : SearchOutcome
  | results : List Row → SearchOutcome
deriving DecidableEq

/-- Lines 202-228 of `main`: reject the request when every input is empty
or whitespace-only, otherwise prepare and filter, then branch on whether
any row matched. -/
def procesar_busqueda (df : List Row) (referencia_input np_input cliente_input : String) :
    SearchOutcome :=
  if pyStrip referencia_input = "" ∧ pyStrip np_input = "" ∧ pyStrip cliente_input = "" then
    .warnNoCriteria
  else
    let resultados := filtrar_datos (preparar_datos df)
      (some referencia_input) (some np_input) (some cliente_input)
    if 0 < resultados.length then .results resultados else .noResults

/-- Outcome of the download section (lines 281-321): the download button
with the CSV payload, the "full dataset download is not allowed" warning,
or the "nothing to download" notice. -/
inductive DownloadOutcome where
  | offer : List Row → DownloadOutcome
  | warnFullDataset : DownloadOutcome
  | nothingToDownload : DownloadOutcome
deriving DecidableEq

/-- Lines 281-321 of `main`: the download button is created only when
`0 < len(resultados) < len(df)`; a result set as large as the source
table triggers the policy warning instead.  The offered payload is the
result set handed to `convertir_a_csv`. -/
def seccion_descarga (resultados df : List Row) : DownloadOutcome :=
  if 0 < resultados.length ∧ resultados.length < df.length then .offer resultados
  else if resultados.length = df.length then .warnFullDataset
  else .nothingToDownload

/-! ### The filter as the specification words it

`specFilter` is a second definition written from the specification's
sentences, for comparison with `filtrar_datos` above: keep exactly the
records whose fields contain every supplied (non-blank-after-trimming)
query as a case-insensitive literal substring, treating a missing field
as the empty string. -/

/-- One field satisfies one optional query, per the specification. -/
def cumpleConsulta (valor : Option String) (q : Option String) : Bool :=
  match q with
  | none => true
  | some s =>
    if pyStrip s = "" then true
    else substrOfCI (pyStrip s).data (valor.getD "").data

/-- The specification's filter: one pass, logical AND of the three
per-field conditions, source order preserved. -/
def specFilter (df : List Row) (referencia np cliente : Option String) : List Row :=
  df.filter (fun r =>
    (cumpleConsulta r.referencia referencia && cumpleConsulta r.np np) &&
      cumpleConsulta r.cliente cliente)

/-! ### Lemmas about `pyStrip` -/

theorem dropWhile_append_all {p : Char → Bool} :
    ∀ {w l : List Char}, (∀ c ∈ w, p c = true) → (w ++ l).dropWhile p = l.dropWhile p
  | [], _, _ => rfl
  | c :: w, l, h => by
    have hc : p c = true := h c (List.mem_cons_self c w)
    simp only [List.cons_append, List.dropWhile_cons, hc, if_true]
    exact dropWhile_append_all (fun x hx => h x (List.mem_cons_of_mem _ hx))

theorem dropWhile_eq_nil_of_all {p : Char → Bool} {w : List Char}
    (h : ∀ c ∈ w, p c = true) : w.dropWhile p = [] := by
  have := dropWhile_append_all (l := []) h
  simpa using this

theorem dropWhile_idem {p : Char → Bool} : ∀ l : List Char,
    (l.dropWhile p).dropWhile p = l.dropWhile p
  | [] => rfl
  | c :: l => by
    by_cases hc : p c = true
    · simp only [List.dropWhile_cons, hc, if_true]
      exact dropWhile_idem l
    · simp [List.dropWhile_cons, hc]

theorem dropWhile_cons_eq_self {p : Char → Bool} {c : Char} {t : List Char}
    (h : (c :: t).dropWhile p = c :: t) : p c = false := by
  by_cases hc : p c = true
  · exfalso
    rw [List.dropWhile_cons, if_pos hc] at h
    have hle : (t.dropWhile p).length ≤ t.length := (List.dropWhile_sublist p).length_le
    rw [h] at hle
    simp at hle
  · simpa using hc

theorem stripLeft_ws_append {w l : List Char} (h : ∀ c ∈ w, isPySpace c = true) :
    stripLeft (w ++ l) = stripLeft l := dropWhile_append_all h

theorem stripLeft_idem (l : List Char) : stripLeft (stripLeft l) = stripLeft l :=
  dropWhile_idem l

theorem stripLeft_append (q l : List Char) :
    stripLeft (q ++ l) = if stripLeft q = [] then stripLeft l else stripLeft q ++ l := by
  induction q with
  | nil => simp [stripLeft]
  | cons c q ih =>
    by_cases hc : isPySpace c = true
    · simpa [stripLeft, List.dropWhile_cons, hc] using ih
    · simp [stripLeft, List.dropWhile_cons, hc]

theorem stripRight_nil_of_all : ∀ {w : List Char},
    (∀ c ∈ w, isPySpace c = true) → stripRight w = []
  | [], _ => rfl
  | c :: w, h => by
    have ht : stripRight w = [] :=
      stripRight_nil_of_all (fun x hx => h x (List.mem_cons_of_mem _ hx))
    simp [stripRight, ht, h c (List.mem_cons_self c w)]

theorem stripRight_append_ws : ∀ (l : List Char) {w : List Char},
    (∀ c ∈ w, isPySpace c = true) → stripRight (l ++ w) = stripRight l
  | [], _, h => by simpa using stripRight_nil_of_all h
  | c :: l, w, h => by
    have ih := stripRight_append_ws l h
    simp [stripRight, ih]

theorem stripRight_cons (c : Char) (t : List Char) :
    stripRight (c :: t) =
      match stripRight t with
      | [] => if isPySpace c then [] else [c]
      | c' :: cs' => c :: c' :: cs' := rfl

theorem stripRight_idem : ∀ l : List Char, stripRight (stripRight l) = stripRight l
  | [] => rfl
  | c :: l => by
    have ih := stripRight_idem l
    cases h : stripRight l with
    | nil =>
      by_cases hc : isPySpace c = true
      · simp [stripRight_cons, stripRight, h, hc]
      · simp [stripRight_cons, stripRight, h, hc]
    | cons c' cs' =>
      have h2 : stripRight (c' :: cs') = c' :: cs' := h ▸ ih
      rw [stripRight_cons, h, stripRight_cons, h2]

theorem stripRight_cons_eq : ∀ {l : List Char} {c : Char} {t : List Char},
    stripRight l = c :: t → ∃ t0, l = c :: t0
  | [], c, t, h => by simp [stripRight] at h
  | a :: l, c, t, h => by
    rw [stripRight_cons] at h
    cases hsr : stripRight l with
    | nil =>
      rw [hsr] at h
      by_cases ha : isPySpace a = true
      · simp [ha] at h
      · simp [ha] at h
        exact ⟨l, by rw [h.1]⟩
    | cons c' cs' =>
      rw [hsr] at h
      simp at h
      exact ⟨l, by rw [h.1]⟩

theorem string_data_append (s t : String) : (s ++ t).data = s.data ++ t.data := by
  cases s; cases t; rfl

theorem pyStrip_data (s : String) : pyStrip s = ⟨stripRight (stripLeft s.data)⟩ := rfl

theorem pyStrip_pad {w1 w2 : String} (q : String)
    (h1 : w1.data.all isPySpace = true) (h2 : w2.data.all isPySpace = true) :
    pyStrip (w1 ++ q ++ w2) = pyStrip q := by
  have hw1 : ∀ c ∈ w1.data, isPySpace c = true := fun c hc => List.all_eq_true.mp h1 c hc
  have hw2 : ∀ c ∈ w2.data, isPySpace c = true := fun c hc => List.all_eq_true.mp h2 c hc
  rw [pyStrip_data, pyStrip_data]
  rw [string_data_append, string_data_append, List.append_assoc]
  rw [show stripLeft (w1.data ++ (q.data ++ w2.data)) = stripLeft (q.data ++ w2.data) from
    stripLeft_ws_append hw1]
  rw [stripLeft_append]
  by_cases hq : stripLeft q.data = []
  · rw [if_pos hq, hq]
    rw [show stripLeft w2.data = [] from dropWhile_eq_nil_of_all hw2]
  · rw [if_neg hq, stripRight_append_ws _ hw2]

theorem stripLeft_stripRight_of_fixed {m : List Char} (hm : stripLeft m = m) :
    stripLeft (stripRight m) = stripRight m := by
  cases hsr : stripRight m with
  | nil => rfl
  | cons c t =>
    obtain ⟨t0, ht0⟩ := stripRight_cons_eq hsr
    rw [ht0] at hm
    have hc : isPySpace c = false := dropWhile_cons_eq_self hm
    simp [stripLeft, List.dropWhile_cons, hc]

theorem pyStrip_idem (s : String) : pyStrip (pyStrip s) = pyStrip s := by
  rw [pyStrip_data, pyStrip_data]
  show (⟨stripRight (stripLeft (stripRight (stripLeft s.data)))⟩ : String) = _
  rw [stripLeft_stripRight_of_fixed (stripLeft_idem s.data)]
  rw [stripRight_idem]

theorem pyStrip_empty : pyStrip "" = "" := rfl

theorem eq_empty_of_data_nil {s : String} (h : s.data = []) : s = "" := by
  cases s; simp_all

theorem pyStrip_ne_empty_imp {s : String} (h : pyStrip s ≠ "") : s ≠ "" := by
  intro he
  exact h (by rw [he]; rfl)

/-! ### Lemmas about the regex fragment and the filter -/

theorem prefOfCI_nil (pat : List Char) : prefOfCI pat [] = pat.isEmpty := by
  cases pat <;> rfl

theorem reMatchAt_eq_prefOfCI : ∀ {pat : List Char}, '.' ∉ pat →
    ∀ t, reMatchAt pat t = prefOfCI pat t
  | [], _, t => by cases t <;> rfl
  | p :: ps, h, [] => rfl
  | p :: ps, h, c :: cs => by
    rw [List.mem_cons, not_or] at h
    have hp : ¬ p = '.' := fun e => h.1 e.symm
    simp only [reMatchAt, prefOfCI, if_neg hp]
    rw [reMatchAt_eq_prefOfCI h.2]

theorem reSearch_eq_substrOfCI {pat : List Char} (h : '.' ∉ pat) :
    ∀ t, reSearch pat t = substrOfCI pat t
  | [] => by
    simp only [reSearch, substrOfCI, reMatchAt_eq_prefOfCI h, prefOfCI_nil]
  | c :: cs => by
    simp only [reSearch, substrOfCI, reMatchAt_eq_prefOfCI h,
      reSearch_eq_substrOfCI h cs]

theorem substrOfCI_nil_of_ne {pat : List Char} (h : pat ≠ []) :
    substrOfCI pat [] = false := by
  cases pat with
  | nil => exact absurd rfl h
  | cons p ps => rfl

theorem regexLit_all_no_dot {l : List Char} (h : l.all regexLit = true) : '.' ∉ l := by
  intro hm
  have := List.all_eq_true.mp h '.' hm
  simp [regexLit, regexMetaChars] at this

/-- The condition of one filter block depends on the query only through
its stripped form. -/
theorem filtroCond_iff (s : String) : (s ≠ "" ∧ pyStrip s ≠ "") ↔ pyStrip s ≠ "" := by
  constructor
  · exact fun h => h.2
  · exact fun h => ⟨pyStrip_ne_empty_imp h, h⟩

/-- `filtroCampo` rewritten as a single `List.filter`. -/
def campoPred (v : Option String) (q : Option String) : Bool :=
  match q with
  | none => true
  | some s => if s ≠ "" ∧ pyStrip s ≠ "" then strContains v (pyStrip s) else true

theorem filtroCampo_eq_filter (df : List Row) (proj : Row → Option String)
    (q : Option String) :
    filtroCampo df proj q = df.filter (fun r => campoPred (proj r) q) := by
  cases q with
  | none => simp [filtroCampo, campoPred, List.filter_true]
  | some s =>
    by_cases hc : s ≠ "" ∧ pyStrip s ≠ ""
    · simp [filtroCampo, campoPred, hc]
    · simp [filtroCampo, campoPred, hc, List.filter_true]

theorem filter_three {α : Type} (f1 f2 f3 : α → Bool) (l : List α) :
    ((l.filter f1).filter f2).filter f3 =
      l.filter (fun a => (f1 a && f2 a) && f3 a) := by
  induction l with
  | nil => rfl
  | cons a l ih =>
    cases h1 : f1 a <;> cases h2 : f2 a <;> cases h3 : f3 a <;>
      simp [List.filter_cons, h1, h2, h3, ih, -List.filter_filter]

theorem filtrar_datos_eq_filter (df : List Row) (r n c : Option String) :
    filtrar_datos df r n c =
      df.filter (fun row =>
        (campoPred row.referencia r && campoPred row.np n) && campoPred row.cliente c) := by
  rw [filtrar_datos, filtroCampo_eq_filter, filtroCampo_eq_filter, filtroCampo_eq_filter,
    filter_three]

theorem filtroCampo_blank (df : List Row) (proj : Row → Option String)
    {q : Option String} (h : q = none ∨ ∃ s, q = some s ∧ pyStrip s = "") :
    filtroCampo df proj q = df := by
  rcases h with h | ⟨s, rfl, hs⟩
  · rw [h]; rfl
  · have : ¬ (s ≠ "" ∧ pyStrip s ≠ "") := fun hc => hc.2 hs
    simp [filtroCampo, this]

theorem filtroCampo_strip_congr (df : List Row) (proj : Row → Option String)
    {s t : String} (h : pyStrip s = pyStrip t) :
    filtroCampo df proj (some s) = filtroCampo df proj (some t) := by
  by_cases hs : pyStrip s = ""
  · have ht : pyStrip t = "" := h ▸ hs
    rw [filtroCampo_blank df proj (Or.inr ⟨s, rfl, hs⟩),
      filtroCampo_blank df proj (Or.inr ⟨t, rfl, ht⟩)]
  · have ht : pyStrip t ≠ "" := h ▸ hs
    have hcs : s ≠ "" ∧ pyStrip s ≠ "" := (filtroCond_iff s).mpr hs
    have hct : t ≠ "" ∧ pyStrip t ≠ "" := (filtroCond_iff t).mpr ht
    show (if s ≠ "" ∧ pyStrip s ≠ "" then _ else df) = (if t ≠ "" ∧ pyStrip t ≠ "" then _ else df)
    rw [if_pos hcs, if_pos hct, h]

/-! ### Demo records used by witnesses and counterexamples -/

/-- A record matching the specification's worked example. -/
def rowNI : Row := ⟨some "NI1025M", some "110445RB0A", some "NISSAN", ["resto"]⟩

/-- A record whose reference is "AB". -/
def rowAB : Row := ⟨some "AB", none, none, []⟩

/-- A record matching none of the example queries. -/
def rowZZ : Row := ⟨some "ZZ9301", some "OTR777", some "TOYOTA", []⟩

/-- A query whose trimmed form consists of regex-literal characters only
(so that `str.contains`'s regex semantics degenerates to substring
containment). -/
def litOk : Option String → Bool
  | none => true
  | some s => (pyStrip s).data.all regexLit

theorem campoPred_eq_cumple (v : Option String) {q : Option String}
    (h : litOk q = true) : campoPred v q = cumpleConsulta v q := by
  cases q with
  | none => rfl
  | some s =>
    by_cases hs : pyStrip s = ""
    · have hnc : ¬ (s ≠ "" ∧ pyStrip s ≠ "") := fun hcnd => hcnd.2 hs
      simp [campoPred, cumpleConsulta, hnc, hs]
    · have hcnd : s ≠ "" ∧ pyStrip s ≠ "" := (filtroCond_iff s).mpr hs
      have hdot : '.' ∉ (pyStrip s).data :=
        regexLit_all_no_dot (by simpa [litOk] using h)
      simp only [campoPred, cumpleConsulta, if_pos hcnd, if_neg hs]
      cases v with
      | none =>
        have hpat : (pyStrip s).data ≠ [] := fun he => hs (eq_empty_of_data_nil he)
        simp [strContains, substrOfCI_nil_of_ne hpat]
      | some hay =>
        simp only [strContains, Option.getD]
        exact reSearch_eq_substrOfCI hdot hay.data

/-! ### Claim C9 -/

/-- C9: calling the core filter itself with every query argument absent,
empty or whitespace-only returns the entire input table unchanged (the
empty-query rejection lives in the caller `procesar_busqueda`, not in
`filtrar_datos`). -/
theorem filtrar_datos_all_blank_id (df : List Row) (r n c : Option String)
    (hr : r = none ∨ ∃ s, r = some s ∧ pyStrip s = "")
    (hn : n = none ∨ ∃ s, n = some s ∧ pyStrip s = "")
    (hc : c = none ∨ ∃ s, c = some s ∧ pyStrip s = "") :
    filtrar_datos df r n c = df := by
  rw [filtrar_datos, filtroCampo_blank _ _ hr, filtroCampo_blank _ _ hn,
    filtroCampo_blank _ _ hc]

/-- Witness for C9 at a concrete table and concrete blank queries. -/
theorem filtrar_datos_all_blank_id_witness :
    filtrar_datos [rowNI, rowZZ] (some "") none (some "  ") = [rowNI, rowZZ] :=
  filtrar_datos_all_blank_id [rowNI, rowZZ] _ _ _
    (Or.inr ⟨"", rfl, rfl⟩) (Or.inl rfl) (Or.inr ⟨"  ", rfl, by decide⟩)

/-! ### Claim C10 -/

/-- C10: surrounding a query with leading/trailing whitespace filters
exactly like the trimmed query, in each of the three query fields (the
filter strips each supplied query before testing and matching). -/
theorem filtrar_datos_strip_invariant (df : List Row) (r n c : Option String)
    (q w1 w2 : String)
    (h1 : w1.data.all isPySpace = true) (h2 : w2.data.all isPySpace = true) :
    filtrar_datos df (some (w1 ++ q ++ w2)) n c
        = filtrar_datos df (some (pyStrip q)) n c ∧
    filtrar_datos df r (some (w1 ++ q ++ w2)) c
        = filtrar_datos df r (some (pyStrip q)) c ∧
    filtrar_datos df r n (some (w1 ++ q ++ w2))
        = filtrar_datos df r n (some (pyStrip q)) := by
  have hkey : pyStrip (w1 ++ q ++ w2) = pyStrip (pyStrip q) := by
    rw [pyStrip_pad q h1 h2, pyStrip_idem]
  refine ⟨?_, ?_, ?_⟩
  · rw [filtrar_datos, filtrar_datos, filtroCampo_strip_congr _ _ hkey]
  · rw [filtrar_datos, filtrar_datos, filtroCampo_strip_congr _ _ hkey]
  · rw [filtrar_datos, filtrar_datos, filtroCampo_strip_congr _ _ hkey]

/-- Witness for C10: a padded and a trimmed query return the same result
set on a concrete table. -/
theorem filtrar_datos_strip_invariant_witness :
    filtrar_datos [rowNI, rowZZ] (some ("  " ++ "ni1025" ++ " ")) none none
      = filtrar_datos [rowNI, rowZZ] (some (pyStrip "ni1025")) none none :=
  (filtrar_datos_strip_invariant [rowNI, rowZZ] none none none "ni1025" "  " " "
    (by decide) (by decide)).1

/-! ### Claim C3 -/

/-- C3 (amended): each supplied non-blank query is applied by
`str.contains` as a case-insensitive regular expression (the pandas
default `regex=True`), with logical AND across supplied queries and no
constraint from absent/blank ones; when every supplied query's trimmed
form consists of regex-literal characters, this coincides exactly with
the claim's case-insensitive literal-substring filter `specFilter`. -/
theorem filtrar_datos_eq_specFilter (df : List Row) (r n c : Option String)
    (hr : litOk r = true) (hn : litOk n = true) (hc : litOk c = true) :
    filtrar_datos df r n c = specFilter df r n c := by
  rw [filtrar_datos_eq_filter, specFilter]
  congr 1
  funext row
  rw [campoPred_eq_cumple _ hr, campoPred_eq_cumple _ hn, campoPred_eq_cumple _ hc]

/-- C3 counterexample: with query "A." the code's filter keeps the record
whose reference is "AB", although "A." does not occur in "AB" as a
case-insensitive literal substring (the dot acts as a regex wildcard), so
the claim as stated is false at this input. -/
theorem filtrar_datos_regex_counterexample :
    filtrar_datos [rowAB] (some "A.") none none = [rowAB] ∧
    specFilter [rowAB] (some "A.") none none = [] ∧
    substrOfCI "A.".data "AB".data = false := by decide

/-- Witness for C3: the specification's worked examples, including the
case-insensitive matches, the non-match, and the two-query AND. -/
theorem filtrar_datos_eq_specFilter_witness :
    (litOk (some "ni1025") = true ∧
      filtrar_datos [rowNI, rowZZ] (some "ni1025") none none
        = specFilter [rowNI, rowZZ] (some "ni1025") none none) ∧
    filtrar_datos [rowNI, rowZZ] (some "ni1025") none none = [rowNI] ∧
    filtrar_datos [rowNI, rowZZ] (some "1025m") none none = [rowNI] ∧
    filtrar_datos [rowNI, rowZZ] (some "NI1026") none none = [] ∧
    filtrar_datos [rowNI, rowZZ] (some "ni1025") (some "445rb") none = [rowNI] :=
  ⟨⟨by decide,
      filtrar_datos_eq_specFilter [rowNI, rowZZ] (some "ni1025") none none
        (by decide) (by decide) (by decide)⟩,
    by decide, by decide, by decide, by decide⟩

/-! ### Claim C4 -/

/-- C4: a search request whose three inputs are all empty or
whitespace-only is rejected before the filter runs: its outcome is the
"must supply a criterion" warning (a table-less, export-less outcome), and
in particular no result table — full or otherwise — is ever produced for
such a request. -/
theorem procesar_busqueda_rejects_blank (df : List Row) (r n c : String)
    (hr : pyStrip r = "") (hn : pyStrip n = "") (hc : pyStrip c = "") :
    procesar_busqueda df r n c = SearchOutcome.warnNoCriteria ∧
    ∀ rows, procesar_busqueda df r n c ≠ SearchOutcome.results rows := by
  have h : procesar_busqueda df r n c = SearchOutcome.warnNoCriteria := by
    rw [procesar_busqueda, if_pos ⟨hr, hn, hc⟩]
  exact ⟨h, fun rows hres => by rw [h] at hres; cases hres⟩

/-- Witness for C4 at concrete blank inputs. -/
theorem procesar_busqueda_rejects_blank_witness :
    procesar_busqueda [rowNI, rowZZ] "" "   " "\t" = SearchOutcome.warnNoCriteria :=
  (procesar_busqueda_rejects_blank [rowNI, rowZZ] "" "   " "\t"
    rfl (by decide) (by decide)).1

/-! ### Claim C5 -/

/-- C5: the download action is reachable exactly when the result set is
non-empty and strictly smaller than the full table, enforced by the size
comparison of line 282; in particular a result set as large as the source
table (the whole unfiltered table) can never reach the export branch. -/
theorem seccion_descarga_policy (resultados df : List Row) :
    ((∃ r, seccion_descarga resultados df = DownloadOutcome.offer r) ↔
      (0 < resultados.length ∧ resultados.length < df.length)) ∧
    (resultados.length = df.length →
      ∀ r, seccion_descarga resultados df ≠ DownloadOutcome.offer r) := by
  constructor
  · constructor
    · rintro ⟨r, hr⟩
      by_cases h : 0 < resultados.length ∧ resultados.length < df.length
      · exact h
      · exfalso
        rw [seccion_descarga, if_neg h] at hr
        by_cases h2 : resultados.length = df.length
        · rw [if_pos h2] at hr; cases hr
        · rw [if_neg h2] at hr; cases hr
    · intro h
      exact ⟨resultados, by rw [seccion_descarga, if_pos h]⟩
  · intro heq r hoffer
    have hlt : ¬ (0 < resultados.length ∧ resultados.length < df.length) := by
      rintro ⟨_, hlt⟩
      omega
    rw [seccion_descarga, if_neg hlt, if_pos heq] at hoffer
    cases hoffer

/-- Witness for C5: a one-row result set out of a two-row table reaches
the download offer. -/
theorem seccion_descarga_policy_witness :
    (∃ r, seccion_descarga [rowNI] [rowNI, rowZZ] = DownloadOutcome.offer r) ∧
    seccion_descarga [rowNI, rowZZ] [rowNI, rowZZ] = DownloadOutcome.warnFullDataset :=
  ⟨(seccion_descarga_policy [rowNI] [rowNI, rowZZ]).1.mpr (by decide), by decide⟩

/-! ### Claim C6 -/

/-- C6: when the fetch/parse step fails (`pd.read_csv` raises), the
loader's `except` branch returns the explicit empty DataFrame instead of
propagating the exception, and the caller halts with the user-visible
"data unavailable" outcome whenever the loaded table is empty — so no
filtering or rendering step is ever reached on a failed load. -/
theorem cargar_failure_empty_halts :
    cargar_datos_desde_url none = DataFrame.mk [] ∧
    pdEmpty (cargar_datos_desde_url none) = true ∧
    ∀ fetched, pdEmpty (cargar_datos_desde_url fetched) = true →
      mainLoadStep fetched = LoadOutcome.unavailable := by
  refine ⟨rfl, rfl, fun fetched h => ?_⟩
  simp [mainLoadStep, h]

/-- Witness for C6 at the failing fetch. -/
theorem cargar_failure_empty_halts_witness :
    mainLoadStep none = LoadOutcome.unavailable :=
  cargar_failure_empty_halts.2.2 none rfl

/-! ### Claim C1 -/

/-- C1 counterexample: an empty raw `FECHA_INGRESO` cell, an unparsable
one, and a raw `01/01/1900` cell are all displayed as the empty string —
never as the literal "Pendiente" the claim requires (no code path of
`src/app.py` produces "Pendiente"). -/
theorem fecha_ingreso_no_pendiente :
    displayFechaIngreso "" = some "" ∧
    displayFechaIngreso "01/01/1900" = some "" ∧
    displayFechaIngreso "abc" = some "" ∧
    ("" : String) ≠ "Pendiente" := by decide

/-- C1 (amended): for `FECHA_INGRESO`, a raw cell that is empty or
unparsable (its `to_datetime` conversion is NaT) and a raw cell equal to
the date 1900-01-01 are displayed as the empty string; any other
parseable date `d` is displayed as `d` formatted DD/MM/YYYY. -/
theorem fecha_ingreso_display (raw : String) :
    ((dateCellRaw raw = TCell.nan ∨ dateCellRaw raw = TCell.date date1900) →
      displayFechaIngreso raw = some "") ∧
    (∀ d, dateCellRaw raw = TCell.date d → d ≠ date1900 →
      displayFechaIngreso raw = some (strftimeDMY d)) := by
  have hcol : columnPipeline "FECHA_INGRESO" raw
      = replaceNanStr (fechaIngresoFix (dateCellRaw raw)) := rfl
  constructor
  · intro h
    rcases h with h | h <;>
      simp [displayFechaIngreso, hcol, h, fechaIngresoFix, replaceNanStr, formatCellValor]
  · intro d hd hne
    simp [displayFechaIngreso, hcol, hd, fechaIngresoFix, replaceNanStr, formatCellValor, hne]

/-- Witness for C1 (amended): the sentinel date collapses to the empty
display and an ordinary date formats as DD/MM/YYYY. -/
theorem fecha_ingreso_display_witness :
    displayFechaIngreso "01/01/1900" = some "" ∧
    displayFechaIngreso "25/12/2024" = some "25/12/2024" := by
  constructor
  · exact (fecha_ingreso_display "01/01/1900").1 (Or.inr (by decide))
  · have h := (fecha_ingreso_display "25/12/2024").2 ⟨2024, 12, 25⟩ (by decide) (by decide)
    rw [h]
    decide

/-! ### Claim C2 -/

/-- C2: the seven sentinel tokens do NOT all normalize to one missing
marker.  In a text column the first six (already read as NaN by
`read_csv`) end as `pd.NA`, but "(en blanco)" — mapped to `pd.NA` by line
33 and then stringified by `astype(str)` on line 53 — survives as the
literal text "<NA>", which line 56's `replace('nan', pd.NA)` does not
catch.  This defeats the cleanup that lines 32-33 and 55-56 document, so
the claim states the intent and the code has a slip. -/
theorem sentinel_normalization_bug :
    columnPipeline "REFERENCIA" "" = TCell.NA ∧
    columnPipeline "REFERENCIA" "nan" = TCell.NA ∧
    columnPipeline "REFERENCIA" "NaN" = TCell.NA ∧
    columnPipeline "REFERENCIA" "None" = TCell.NA ∧
    columnPipeline "REFERENCIA" "N/A" = TCell.NA ∧
    columnPipeline "REFERENCIA" "n/a" = TCell.NA ∧
    columnPipeline "REFERENCIA" "(en blanco)" = TCell.s "<NA>" ∧
    TCell.s "<NA>" ≠ TCell.NA := by decide

/-! ### Claim C7 -/

/-- A one-row result set, as handed to `convertir_a_csv`. -/
def dfCsvDemo : DataFrame :=
  ⟨[("REFERENCIA", [TCell.s "NI1025M"]), ("NP", [TCell.s "110445RB0A"])]⟩

/-- C7: the produced CSV string is comma-delimited with a header row and
no index column, but it does not begin with a byte-order mark: `to_csv`
is called without a path, so it returns a Python `str` and its
`encoding='utf-8-sig'` argument is ignored; the download widget then
emits plain UTF-8 bytes.  The BOM part of the claim states the code's
documented intent, which the code fails to realize. -/
theorem convertir_a_csv_no_bom :
    convertir_a_csv dfCsvDemo = "REFERENCIA,NP\nNI1025M,110445RB0A\n" ∧
    (convertir_a_csv dfCsvDemo).data.head? = some 'R' ∧
    ('R' : Char) ≠ '\uFEFF' := by decide

/-! ### Claim C8 -/

/-- A cell on which the formatting lambda does not raise: date columns of
a loaded table contain only datetimes and missing values, never strings. -/
def notStrCell : TCell → Bool
  | .s _ => false
  | _ => true

/-- Every date column of the table holds only datetime/missing cells. -/
def DateColsOk (df : DataFrame) : Bool :=
  df.cols.all (fun col => !(dateColumns.contains col.1) || col.2.all notStrCell)

theorem formatCell_isSome {c : TCell} (h : notStrCell c = true) :
    ∃ c', formatCell c = some c' := by
  cases c with
  | s v => simp [notStrCell] at h
  | nan => exact ⟨TCell.s "", rfl⟩
  | NA => exact ⟨TCell.s "", rfl⟩
  | date d => exact ⟨TCell.s (strftimeDMY d), rfl⟩

theorem formatColumnCells_isSome : ∀ {cs : List TCell}, cs.all notStrCell = true →
    ∃ cs', formatColumnCells cs = some cs'
  | [], _ => ⟨[], rfl⟩
  | c :: cs, h => by
    rw [List.all_cons, Bool.and_eq_true] at h
    obtain ⟨c', hc⟩ := formatCell_isSome h.1
    obtain ⟨cs', hcs⟩ := formatColumnCells_isSome h.2
    exact ⟨c' :: cs', by simp [formatColumnCells, hc, hcs]⟩

theorem formatearCols_cons (col : String × List TCell)
    (rest : List (String × List TCell)) :
    formatearCols (col :: rest) =
      match (if dateColumns.contains col.1 then formatColumnCells col.2 else some col.2),
          formatearCols rest with
      | some cs', some rest' => some ((col.1, cs') :: rest')
      | _, _ => none := rfl

theorem formatearCols_frame : ∀ {cols : List (String × List TCell)},
    (cols.all (fun col => !(dateColumns.contains col.1) || col.2.all notStrCell)) = true →
    ∃ cols', formatearCols cols = some cols' ∧
      cols'.length = cols.length ∧
      ∀ i (hi : i < cols.length) (hi' : i < cols'.length),
        (cols'.get ⟨i, hi'⟩).1 = (cols.get ⟨i, hi⟩).1 ∧
        (dateColumns.contains (cols.get ⟨i, hi⟩).1 = false →
          cols'.get ⟨i, hi'⟩ = cols.get ⟨i, hi⟩)
  | [], _ => ⟨[], rfl, rfl, fun i hi => absurd hi (by simp)⟩
  | col :: rest, h => by
    rw [List.all_cons, Bool.and_eq_true] at h
    obtain ⟨rest', hrest, hlen, hframe⟩ := formatearCols_frame h.2
    by_cases hdate : dateColumns.contains col.1 = true
    · have hok : col.2.all notStrCell = true := by
        rcases (Bool.or_eq_true _ _).mp h.1 with hno | hok
        · rw [Bool.not_eq_true'] at hno
          rw [hno] at hdate
          cases hdate
        · exact hok
      obtain ⟨cs', hcs⟩ := formatColumnCells_isSome hok
      refine ⟨(col.1, cs') :: rest', ?_, by simp [hlen], ?_⟩
      · rw [formatearCols_cons, if_pos hdate, hcs, hrest]
      · intro i hi hi'
        cases i with
        | zero =>
          refine ⟨rfl, fun hnd => ?_⟩
          have hnd' : dateColumns.contains col.1 = false := hnd
          rw [hdate] at hnd'
          cases hnd'
        | succ j =>
          have hj : j < rest.length := by simpa using hi
          have hj' : j < rest'.length := by simpa using hi'
          exact hframe j hj hj'
    · refine ⟨col :: rest', ?_, by simp [hlen], ?_⟩
      · rw [formatearCols_cons, if_neg hdate, hrest]
      · intro i hi hi'
        cases i with
        | zero => exact ⟨rfl, fun _ => rfl⟩
        | succ j =>
          have hj : j < rest.length := by simpa using hi
          have hj' : j < rest'.length := by simpa using hi'
          exact hframe j hj hj'

/-- C8: on any table whose date columns hold only datetimes and missing
values (as loaded tables do), the formatter returns a new table — the
input, a pure value, is left unmodified — in which every column other
than the four date columns passes through with its name and all its
cells unchanged, in place. -/
theorem formatear_fechas_frame (df : DataFrame) (h : DateColsOk df = true) :
    ∃ df', formatear_fechas_df df = some df' ∧
      df'.cols.length = df.cols.length ∧
      ∀ i (hi : i < df.cols.length) (hi' : i < df'.cols.length),
        (df'.cols.get ⟨i, hi'⟩).1 = (df.cols.get ⟨i, hi⟩).1 ∧
        (dateColumns.contains (df.cols.get ⟨i, hi⟩).1 = false →
          df'.cols.get ⟨i, hi'⟩ = df.cols.get ⟨i, hi⟩) := by
  obtain ⟨cols', hcols, hlen, hframe⟩ := formatearCols_frame h
  exact ⟨⟨cols'⟩, by simp [formatear_fechas_df, hcols], hlen, hframe⟩

/-- A table with one text column and one date column. -/
def dfFmtDemo : DataFrame :=
  ⟨[("NP", [TCell.s "110445RB0A"]), ("ETD", [TCell.date ⟨2024, 2, 1⟩, TCell.nan])]⟩

/-- Witness for C8 at a concrete table. -/
theorem formatear_fechas_frame_witness :
    DateColsOk dfFmtDemo = true ∧
    ∃ df', formatear_fechas_df dfFmtDemo = some df' ∧
      df'.cols.length = dfFmtDemo.cols.length ∧
      ∀ i (hi : i < dfFmtDemo.cols.length) (hi' : i < df'.cols.length),
        (df'.cols.get ⟨i, hi'⟩).1 = (dfFmtDemo.cols.get ⟨i, hi⟩).1 ∧
        (dateColumns.contains (dfFmtDemo.cols.get ⟨i, hi⟩).1 = false →
          df'.cols.get ⟨i, hi'⟩ = dfFmtDemo.cols.get ⟨i, hi⟩) :=
  ⟨by decide, formatear_fechas_frame dfFmtDemo (by decide)⟩

end BOL02
